import Mathlib

/-!
# Legal QA front end: the question / answer / history state machine

Shallow embedding of the `App` component of `src/frontend/src/App.js`.

The component holds four pieces of React state (`question`, `answer`,
`loading`, `chatHistory`).  `handleSubmit` is an `async` function: it runs
synchronously up to `await axios.post(...)`, and its continuation (the rest of
the `try` block, the `catch` block and the `finally` block) runs when the
promise settles.  The embedding splits it accordingly:

* `handleSubmit` is the synchronous part (lines 11-22);
* `handleSubmitResume` is the continuation (lines 24-37);
* the suspended invocations are kept in the field `pending` of the state, each
  one remembering the value of its local constant `currentQuestion`.

JavaScript strings are modelled by `String`; the wall-clock string produced by
`new Date().toLocaleTimeString()` is an input of the continuation.
-/

namespace LegalQA

/-! ## Strings -/

/-- Code points that `String.prototype.trim` strips: ECMAScript `WhiteSpace`
(TAB, VT, FF, ZWNBSP and the category Zs) and `LineTerminator` (LF, CR, LS, PS). -/
def isJsWhiteSpace (c : Char) : Bool :=
  let n := c.toNat
  n == 0x09 || n == 0x0A || n == 0x0B || n == 0x0C || n == 0x0D ||
  n == 0x20 || n == 0xA0 || n == 0x1680 ||
  (0x2000 ≤ n && n ≤ 0x200A) ||
  n == 0x2028 || n == 0x2029 || n == 0x202F || n == 0x205F ||
  n == 0x3000 || n == 0xFEFF

/-- `String.prototype.trim` on the list of characters of a string. -/
def trimChars (cs : List Char) : List Char :=
  ((cs.dropWhile isJsWhiteSpace).reverse.dropWhile isJsWhiteSpace).reverse

/-- `String.prototype.trim`: the string without leading and trailing white space. -/
def jsTrim (s : String) : String :=
  ⟨trimChars s.data⟩

/-- JavaScript truthiness of a string: only the empty string is falsy. -/
def truthy (s : String) : Bool :=
  !s.data.isEmpty

/-! ## Data model -/

/-- The object literal `newChat` of `handleSubmit` (lines 24-28). -/
structure ChatEntry where
  question : String
  answer : String
  timestamp : String
deriving DecidableEq

/-- The part of `response.data` that the component reads. -/
structure ResponseData where
  answer : String
deriving DecidableEq

/-- Why the promise of `axios.post` rejected. -/
inductive RejectReason where
  | network
  | status (code : Nat)
deriving DecidableEq

/-- How the promise of `axios.post('/api/ask', ...)` settles.  It rejects on a
transport error and on a status outside 2xx; otherwise it fulfils with a
response whose `data` is `none` when it is `null` or `undefined`, in which case
evaluating `response.data.answer` throws. -/
inductive PostResult where
  | rejected (reason : RejectReason)
  | fulfilled (data : Option ResponseData)
deriving DecidableEq

/-- The state of the component: the four `useState` cells (lines 6-9) and the
suspended invocations of `handleSubmit`, oldest first, each represented by its
`currentQuestion`. -/
structure State where
  question : String
  answer : String
  loading : Bool
  chatHistory : List ChatEntry
  pending : List String
deriving DecidableEq

/-- The initial values passed to `useState`; nothing is in flight. -/
def init : State :=
  { question := "", answer := "", loading := false, chatHistory := [], pending := [] }

/-- The text stored by the `catch` block (line 34). -/
def fallbackAnswer : String :=
  "Sorry, I encountered an error while processing your question. Please try again."

/-- The array `exampleQuestions` (lines 40-46). -/
def exampleQuestions : List String :=
  [ "What are Miranda rights?",
    "How does copyright law protect software?",
    "What constitutes workplace discrimination?",
    "What are the requirements for forming a contract?",
    "How does the Fourth Amendment protect privacy?" ]

/-! ## Operations -/

/-- The setter `setQuestion` (used by `onChange`, line 117, and by the example
buttons, line 180). -/
def setQuestion (s : State) (text : String) : State :=
  { s with question := text }

/-- The synchronous part of `handleSubmit` (lines 11-22): the guard on the
trimmed draft, `setLoading(true)`, the capture of `currentQuestion`,
`setQuestion('')` and the dispatch of the request. -/
def handleSubmit (s : State) : State :=
  if !truthy (jsTrim s.question) then s
  else
    let currentQuestion := s.question
    { s with loading := true, question := "", pending := s.pending ++ [currentQuestion] }

/-- The continuation of `handleSubmit` after the `await` (lines 24-37), run in
the state `s` current when the promise settles, for the invocation that
captured `currentQuestion`; `now` is `new Date().toLocaleTimeString()`. -/
def handleSubmitResume (s : State) (currentQuestion : String) (r : PostResult)
    (now : String) : State :=
  match r with
  | .fulfilled (some data) =>
      let newChat : ChatEntry :=
        { question := currentQuestion, answer := data.answer, timestamp := now }
      { s with chatHistory := s.chatHistory ++ [newChat], answer := data.answer,
               loading := false }
  | _ =>
      { s with answer := fallbackAnswer, loading := false }

/-- The promise of the `i`-th suspended invocation settles with `r`; `none`
when there is no such invocation. -/
def resolve (s : State) (i : Nat) (r : PostResult) (now : String) : Option State :=
  match s.pending.get? i with
  | none => none
  | some currentQuestion =>
      some (handleSubmitResume { s with pending := s.pending.eraseIdx i } currentQuestion r now)

/-- The `disabled` attribute of the submit button (line 124). -/
def submitDisabled (s : State) : Bool :=
  s.loading || !truthy (jsTrim s.question)

/-! ## Steps and reachable states -/

/-- What can happen to the component. -/
inductive Event where
  | setQuestion (text : String)
  | selectExample (index : Nat)
  | submit
  | resolve (i : Nat) (r : PostResult) (now : String)
deriving DecidableEq

/-- One step of the component; `none` when the event cannot occur in `s`. -/
def step (s : State) : Event → Option State
  | .setQuestion text => some (setQuestion s text)
  | .selectExample index => (exampleQuestions.get? index).map (setQuestion s)
  | .submit => some (handleSubmit s)
  | .resolve i r now => resolve s i r now

/-- One step of the component as offered by the form rendered from `s`: the
submit button of that render is disabled when `submitDisabled` holds, so
`handleSubmit` only runs otherwise. -/
def uiStep (s : State) : Event → Option State
  | .submit => if submitDisabled s then none else some (handleSubmit s)
  | ev => step s ev

/-- Runs a sequence of events from `s`. -/
def run (s : State) : List Event → Option State
  | [] => some s
  | ev :: evs => (step s ev).bind (fun t => run t evs)

/-- One step of a serial session: as `step`, except that `handleSubmit` is not
run when the `loading` cell of `s` is set.  The test is on the cell as left by
the preceding events, whatever the last render shows. -/
def serialStep (s : State) : Event → Option State
  | .submit => if s.loading then none else some (handleSubmit s)
  | ev => step s ev

/-- Runs a sequence of events from `s` in which no `handleSubmit` is run while
the `loading` cell is set; `none` for the other sequences. -/
def serialRun (s : State) : List Event → Option State
  | [] => some s
  | ev :: evs => (serialStep s ev).bind (fun t => serialRun t evs)

/-- States reachable from `init` by any sequence of events. -/
def Reachable (s : State) : Prop :=
  ∃ evs, run init evs = some s

/-- States reachable from `init` by a sequence of events in which no
`handleSubmit` is run while the `loading` cell is set. -/
def SerialReachable (s : State) : Prop :=
  ∃ evs, serialRun init evs = some s

/-! ## Invariants -/

/-- While the flag is set, some invocation of `handleSubmit` is suspended. -/
def LoadingHasPending (s : State) : Prop :=
  s.loading = true → s.pending ≠ []

/-- The flag counts the suspended invocations: one when set, none otherwise. -/
def SingleFlight (s : State) : Prop :=
  s.pending.length = if s.loading then 1 else 0

/-! ## Scenario states -/

/-- The first example question has been submitted and is awaiting its response. -/
def awaitingMiranda : State :=
  { question := "", answer := "", loading := true, chatHistory := [],
    pending := ["What are Miranda rights?"] }

/-- As `awaitingMiranda`, after the second example button has been clicked. -/
def awaitingWithDraft : State :=
  { awaitingMiranda with question := "How does copyright law protect software?" }

/-- The transcript entry of the Miranda scenario. -/
def mirandaEntry : ChatEntry :=
  { question := "What are Miranda rights?", answer := "Miranda rights require...",
    timestamp := "10:00:00 AM" }

/-- The state after the Miranda scenario has been answered. -/
def answeredMiranda : State :=
  { question := "", answer := "Miranda rights require...", loading := false,
    chatHistory := [mirandaEntry], pending := [] }

/-- The state after a request failed with nothing in the transcript. -/
def failedEmpty : State :=
  { question := "", answer := fallbackAnswer, loading := false, chatHistory := [],
    pending := [] }

/-- The state in which the older of two overlapping requests has been answered. -/
def secondStillPending : State :=
  { question := "", answer := "Miranda rights require...", loading := false,
    chatHistory := [mirandaEntry], pending := ["How does copyright law protect software?"] }

/-! ## Auxiliary facts -/

theorem truthy_iff_ne_empty (s : String) : truthy s = true ↔ s ≠ "" := by
  cases s with
  | mk d => cases d <;> simp [truthy, String.ext_iff]

theorem trimChars_of_all_whiteSpace (cs : List Char)
    (h : ∀ c ∈ cs, isJsWhiteSpace c = true) : trimChars cs = [] := by
  have h1 : cs.dropWhile isJsWhiteSpace = [] := List.dropWhile_eq_nil_iff.mpr h
  simp [trimChars, h1]

theorem jsTrim_of_all_whiteSpace (q : String)
    (h : ∀ c ∈ q.data, isJsWhiteSpace c = true) : jsTrim q = "" := by
  simp [jsTrim, trimChars_of_all_whiteSpace q.data h, String.ext_iff]

theorem handleSubmit_of_blank (s : State) (h : jsTrim s.question = "") :
    handleSubmit s = s := by
  simp [handleSubmit, h, truthy]

theorem handleSubmit_of_nonblank (s : State) (h : jsTrim s.question ≠ "") :
    handleSubmit s =
      { s with loading := true, question := "", pending := s.pending ++ [s.question] } := by
  have ht : truthy (jsTrim s.question) = true := (truthy_iff_ne_empty _).mpr h
  simp [handleSubmit, ht]

theorem resolve_of_pending (s : State) (i : Nat) (q : String) (r : PostResult) (now : String)
    (h : s.pending.get? i = some q) :
    resolve s i r now =
      some (handleSubmitResume { s with pending := s.pending.eraseIdx i } q r now) := by
  unfold resolve
  rw [h]

theorem resolve_of_no_pending (s : State) (i : Nat) (r : PostResult) (now : String)
    (h : s.pending.get? i = none) : resolve s i r now = none := by
  unfold resolve
  rw [h]

theorem handleSubmitResume_loading (s : State) (q : String) (r : PostResult) (now : String) :
    (handleSubmitResume s q r now).loading = false := by
  unfold handleSubmitResume
  split <;> rfl

theorem handleSubmitResume_pending (s : State) (q : String) (r : PostResult) (now : String) :
    (handleSubmitResume s q r now).pending = s.pending := by
  unfold handleSubmitResume
  split <;> rfl

theorem handleSubmitResume_history_prefix (s : State) (q : String) (r : PostResult)
    (now : String) : s.chatHistory <+: (handleSubmitResume s q r now).chatHistory := by
  unfold handleSubmitResume
  split
  · exact List.prefix_append _ _
  · exact List.prefix_refl _

theorem handleSubmit_history (s : State) : (handleSubmit s).chatHistory = s.chatHistory := by
  unfold handleSubmit
  split <;> rfl

/-! ## Invariants of the step relation -/

theorem step_loadingHasPending (s t : State) (ev : Event) (h : step s ev = some t)
    (hs : LoadingHasPending s) : LoadingHasPending t := by
  cases ev with
  | setQuestion text =>
      simp only [step, Option.some.injEq] at h
      subst h
      exact hs
  | selectExample index =>
      simp only [step] at h
      cases hx : exampleQuestions.get? index with
      | none => rw [hx] at h; cases h
      | some ex =>
          rw [hx, Option.map_some', Option.some.injEq] at h
          subst h
          exact hs
  | submit =>
      simp only [step, Option.some.injEq] at h
      subst h
      by_cases hq : jsTrim s.question = ""
      · rw [handleSubmit_of_blank s hq]
        exact hs
      · rw [handleSubmit_of_nonblank s hq]
        intro _
        simp
  | resolve i r now =>
      simp only [step] at h
      cases hp : s.pending.get? i with
      | none => rw [resolve_of_no_pending s i r now hp] at h; cases h
      | some q =>
          rw [resolve_of_pending s i q r now hp, Option.some.injEq] at h
          subst h
          intro hl
          rw [handleSubmitResume_loading] at hl
          exact absurd hl (by decide)

theorem serialStep_singleFlight (s t : State) (ev : Event)
    (h : serialStep s ev = some t) (hs : SingleFlight s) : SingleFlight t := by
  cases ev with
  | setQuestion text =>
      simp only [serialStep, step, Option.some.injEq] at h
      subst h
      exact hs
  | selectExample index =>
      simp only [serialStep, step] at h
      cases hx : exampleQuestions.get? index with
      | none => rw [hx] at h; cases h
      | some ex =>
          rw [hx, Option.map_some', Option.some.injEq] at h
          subst h
          exact hs
  | submit =>
      simp only [serialStep] at h
      cases hl : s.loading with
      | true => simp [hl] at h
      | false =>
          simp only [hl, Bool.false_eq_true, if_false, Option.some.injEq] at h
          subst h
          have hlen : s.pending.length = 0 := by
            simpa [SingleFlight, hl] using hs
          by_cases hq : jsTrim s.question = ""
          · rw [handleSubmit_of_blank s hq]
            exact hs
          · rw [handleSubmit_of_nonblank s hq]
            simp [SingleFlight, hlen]
  | resolve i r now =>
      simp only [serialStep, step] at h
      cases hp : s.pending.get? i with
      | none => rw [resolve_of_no_pending s i r now hp] at h; cases h
      | some q =>
          rw [resolve_of_pending s i q r now hp, Option.some.injEq] at h
          subst h
          have hi : i < s.pending.length := by
            rw [List.get?_eq_some] at hp
            exact hp.1
          have hlen : s.pending.length = 1 := by
            unfold SingleFlight at hs
            cases hl : s.loading with
            | true => simpa [hl] using hs
            | false =>
                rw [hl] at hs
                simp only [Bool.false_eq_true, if_false] at hs
                omega
          unfold SingleFlight
          rw [handleSubmitResume_loading, handleSubmitResume_pending]
          have hi0 : i = 0 := by omega
          simp [List.length_eraseIdx, hlen, hi0]

theorem run_loadingHasPending (evs : List Event) (s t : State) (h : run s evs = some t)
    (hs : LoadingHasPending s) : LoadingHasPending t := by
  induction evs generalizing s with
  | nil =>
      simp only [run, Option.some.injEq] at h
      subst h
      exact hs
  | cons ev evs ih =>
      simp only [run, Option.bind_eq_some] at h
      obtain ⟨u, hu, hrest⟩ := h
      exact ih u hrest (step_loadingHasPending s u ev hu hs)

theorem serialRun_singleFlight (evs : List Event) (s t : State)
    (h : serialRun s evs = some t) (hs : SingleFlight s) : SingleFlight t := by
  induction evs generalizing s with
  | nil =>
      simp only [serialRun, Option.some.injEq] at h
      subst h
      exact hs
  | cons ev evs ih =>
      simp only [serialRun, Option.bind_eq_some] at h
      obtain ⟨u, hu, hrest⟩ := h
      exact ih u hrest (serialStep_singleFlight s u ev hu hs)

theorem init_loadingHasPending : LoadingHasPending init := by
  intro h
  exact absurd h (by decide)

theorem init_singleFlight : SingleFlight init := by
  unfold SingleFlight
  decide

/-! ## The submission guard -/

/-- C4: when the draft question is empty or made of white space only,
`handleSubmit` returns the state unchanged: the transcript, the loading flag,
the draft, the current answer and the set of requests in flight stay as they are. -/
theorem handleSubmit_blank_draft_noop (s : State)
    (h : s.question.data.all isJsWhiteSpace = true) : handleSubmit s = s := by
  apply handleSubmit_of_blank
  apply jsTrim_of_all_whiteSpace
  simpa [List.all_eq_true] using h

/-- Instance of C4 at the draft made of two spaces, in the middle of a session. -/
theorem handleSubmit_blank_draft_noop_witness :
    (setQuestion answeredMiranda "  ").question.data.all isJsWhiteSpace = true ∧
      handleSubmit (setQuestion answeredMiranda "  ") = setQuestion answeredMiranda "  " :=
  ⟨by decide, handleSubmit_blank_draft_noop (setQuestion answeredMiranda "  ") (by decide)⟩

/-- C6: when the trimmed draft is not empty, the synchronous part of
`handleSubmit` leaves a state with an empty draft, the loading flag set and the
transcript unchanged. -/
theorem handleSubmit_clears_draft_sets_loading (s : State) (h : jsTrim s.question ≠ "") :
    (handleSubmit s).question = "" ∧ (handleSubmit s).loading = true ∧
      (handleSubmit s).chatHistory = s.chatHistory := by
  rw [handleSubmit_of_nonblank s h]
  exact ⟨rfl, rfl, rfl⟩

/-- Instance of C6 at the first example question, after one answered question. -/
theorem handleSubmit_clears_draft_sets_loading_witness :
    jsTrim (setQuestion answeredMiranda "What is a tort?").question ≠ "" ∧
      (handleSubmit (setQuestion answeredMiranda "What is a tort?")).question = "" ∧
      (handleSubmit (setQuestion answeredMiranda "What is a tort?")).loading = true ∧
      (handleSubmit (setQuestion answeredMiranda "What is a tort?")).chatHistory =
        [mirandaEntry] :=
  ⟨by decide,
   handleSubmit_clears_draft_sets_loading (setQuestion answeredMiranda "What is a tort?")
     (by decide)⟩

/-- C3 as stated fails: for the draft `"  What is a tort?  "`, whose trimmed
form is `"What is a tort?"`, the question captured by `handleSubmit`, and stored
in the transcript entry once the answer arrives, is the draft with its spaces. -/
theorem handleSubmit_captures_untrimmed_example :
    jsTrim "  What is a tort?  " = "What is a tort?" ∧
      (handleSubmit (setQuestion init "  What is a tort?  ")).pending =
        ["  What is a tort?  "] ∧
      (handleSubmit (setQuestion init "  What is a tort?  ")).pending ≠
        [jsTrim "  What is a tort?  "] ∧
      (run init [.setQuestion "  What is a tort?  ", .submit,
          .resolve 0 (.fulfilled (some ⟨"A tort is a civil wrong."⟩)) "10:00:00 AM"]).map
        (fun s => s.chatHistory) =
        some [⟨"  What is a tort?  ", "A tort is a civil wrong.", "10:00:00 AM"⟩] := by
  decide

/-- C3 amended: when the trimmed draft is not empty, the question captured by
`handleSubmit` is the draft itself, white space included: it is what the new
request carries, and what the transcript entry holds once that request succeeds. -/
theorem handleSubmit_captures_draft_verbatim (s : State) (h : jsTrim s.question ≠ "")
    (a now : String) :
    (handleSubmit s).pending = s.pending ++ [s.question] ∧
      ∃ t, resolve (handleSubmit s) s.pending.length (.fulfilled (some ⟨a⟩)) now = some t ∧
        t.chatHistory = s.chatHistory ++ [⟨s.question, a, now⟩] := by
  rw [handleSubmit_of_nonblank s h]
  refine ⟨rfl, _, resolve_of_pending _ _ s.question _ _ ?_, rfl⟩
  simp

/-- Instance of the amended C3 at the draft `"  What is a tort?  "`. -/
theorem handleSubmit_captures_draft_verbatim_witness :
    jsTrim (setQuestion init "  What is a tort?  ").question ≠ "" ∧
      (handleSubmit (setQuestion init "  What is a tort?  ")).pending =
        [] ++ ["  What is a tort?  "] ∧
      ∃ t, resolve (handleSubmit (setQuestion init "  What is a tort?  ")) 0
          (.fulfilled (some ⟨"A tort is a civil wrong."⟩)) "10:00:00 AM" = some t ∧
        t.chatHistory =
          [] ++ [⟨"  What is a tort?  ", "A tort is a civil wrong.", "10:00:00 AM"⟩] :=
  ⟨by decide,
   handleSubmit_captures_draft_verbatim (setQuestion init "  What is a tort?  ") (by decide)
     "A tort is a civil wrong." "10:00:00 AM"⟩

/-! ## Resolution of a request -/

/-- C2: when the request of a suspended invocation that captured the question
`q` succeeds with the answer `a`, the new transcript is the old one followed by
one entry, whose question is `q` and whose answer is `a`. -/
theorem resolve_success_appends_entry (s : State) (i : Nat) (q a now : String)
    (h : s.pending.get? i = some q) :
    ∃ t, resolve s i (.fulfilled (some ⟨a⟩)) now = some t ∧
      t.chatHistory = s.chatHistory ++ [⟨q, a, now⟩] :=
  ⟨_, resolve_of_pending s i q _ now h, rfl⟩

/-- Instance of C2: the Miranda scenario. -/
theorem resolve_success_appends_entry_witness :
    awaitingMiranda.pending.get? 0 = some "What are Miranda rights?" ∧
      ∃ t, resolve awaitingMiranda 0 (.fulfilled (some ⟨"Miranda rights require..."⟩))
          "10:00:00 AM" = some t ∧
        t.chatHistory = awaitingMiranda.chatHistory ++
          [⟨"What are Miranda rights?", "Miranda rights require...", "10:00:00 AM"⟩] :=
  ⟨by decide,
   resolve_success_appends_entry awaitingMiranda 0 "What are Miranda rights?"
     "Miranda rights require..." "10:00:00 AM" (by decide)⟩

/-- C1 on the code: the draft `"What is..."` is submitted from the initial state
and the request fails, by a network error, by a status 500, or by a response
without data.  In the three cases the transcript is still empty afterwards; the
fallback text went to the `answer` cell only. -/
theorem failed_request_appends_no_entry :
    run init [.setQuestion "What is...", .submit,
        .resolve 0 (.rejected .network) "10:00:00 AM"] = some failedEmpty ∧
      run init [.setQuestion "What is...", .submit,
        .resolve 0 (.rejected (.status 500)) "10:00:00 AM"] = some failedEmpty ∧
      run init [.setQuestion "What is...", .submit,
        .resolve 0 (.fulfilled none) "10:00:00 AM"] = some failedEmpty ∧
      failedEmpty.chatHistory.length = 0 ∧ failedEmpty.answer = fallbackAnswer := by
  decide

/-- C8: whatever the outcome of the request of a suspended invocation, the state
after its resolution has the loading flag cleared. -/
theorem resolve_clears_loading (s : State) (i : Nat) (r : PostResult) (now : String)
    (h : i < s.pending.length) :
    ∃ t, resolve s i r now = some t ∧ t.loading = false := by
  have hp : s.pending.get? i = some (s.pending.get ⟨i, h⟩) := List.get?_eq_get h
  exact ⟨_, resolve_of_pending s i _ r now hp, handleSubmitResume_loading _ _ r now⟩

/-- Instance of C8: the request of the Miranda scenario fails with status 500. -/
theorem resolve_clears_loading_witness :
    0 < awaitingMiranda.pending.length ∧
      ∃ t, resolve awaitingMiranda 0 (.rejected (.status 500)) "10:00:00 AM" = some t ∧
        t.loading = false :=
  ⟨by decide,
   resolve_clears_loading awaitingMiranda 0 (.rejected (.status 500)) "10:00:00 AM"
     (by decide)⟩

/-- C9 on the code: after an answered question, a second question whose request
fails leaves the fallback text in the `answer` cell while the last transcript
entry still holds the first answer; nothing is in flight in that state. -/
theorem answer_differs_from_last_entry_after_failure :
    run init [.selectExample 0, .submit,
        .resolve 0 (.fulfilled (some ⟨"Miranda rights require..."⟩)) "10:00:00 AM",
        .selectExample 1, .submit, .resolve 0 (.rejected .network) "10:05:00 AM"] =
        some { answeredMiranda with answer := fallbackAnswer } ∧
      ({ answeredMiranda with answer := fallbackAnswer } : State).pending = [] ∧
      ({ answeredMiranda with answer := fallbackAnswer } : State).chatHistory.getLast? =
        some mirandaEntry ∧
      ({ answeredMiranda with answer := fallbackAnswer } : State).answer ≠
        mirandaEntry.answer := by
  decide

/-! ## The in-flight guard -/

/-- C5 as stated fails: in `awaitingWithDraft`, reached from the initial state
with a request in flight and a draft set by an example button, `handleSubmit`
clears the draft and dispatches a second request. -/
theorem handleSubmit_while_loading_example :
    run init [.selectExample 0, .submit, .selectExample 1] = some awaitingWithDraft ∧
      awaitingWithDraft.loading = true ∧
      handleSubmit awaitingWithDraft ≠ awaitingWithDraft ∧
      (handleSubmit awaitingWithDraft).question = "" ∧
      (handleSubmit awaitingWithDraft).pending =
        ["What are Miranda rights?", "How does copyright law protect software?"] := by
  decide

/-- C5 amended: while the loading flag is set the submit button is disabled, so
the rendered form does not run `handleSubmit`; `handleSubmit` itself does not
look at the flag: run with a draft that is not empty once trimmed, it clears the
draft and dispatches one more request, and leaves the transcript, the current
answer and the flag (still set) as they were. -/
theorem handleSubmit_while_loading (s : State) (h : s.loading = true)
    (hq : jsTrim s.question ≠ "") :
    submitDisabled s = true ∧ uiStep s .submit = none ∧
      handleSubmit s = { s with question := "", pending := s.pending ++ [s.question] } := by
  have hd : submitDisabled s = true := by simp [submitDisabled, h]
  refine ⟨hd, by simp [uiStep, hd], ?_⟩
  rw [handleSubmit_of_nonblank s hq, ← h]

/-- Instance of the amended C5 at `awaitingWithDraft`. -/
theorem handleSubmit_while_loading_witness :
    awaitingWithDraft.loading = true ∧ jsTrim awaitingWithDraft.question ≠ "" ∧
      submitDisabled awaitingWithDraft = true ∧ uiStep awaitingWithDraft .submit = none ∧
      handleSubmit awaitingWithDraft =
        { awaitingWithDraft with
            question := "",
            pending := awaitingWithDraft.pending ++ [awaitingWithDraft.question] } :=
  ⟨by decide, by decide, handleSubmit_while_loading awaitingWithDraft (by decide) (by decide)⟩

/-- C7 as stated fails: two submissions overlap, the first request is answered,
and the state reached has the loading flag cleared with the second request still
in flight. -/
theorem loading_cleared_with_request_in_flight :
    run init [.selectExample 0, .submit, .selectExample 1, .submit,
        .resolve 0 (.fulfilled (some ⟨"Miranda rights require..."⟩)) "10:00:00 AM"] =
        some secondStillPending ∧
      run init [.setQuestion "What are Miranda rights?", .submit,
        .setQuestion "How does copyright law protect software?", .submit,
        .resolve 0 (.fulfilled (some ⟨"Miranda rights require..."⟩)) "10:00:00 AM"] =
        some secondStillPending ∧
      secondStillPending.loading = false ∧ secondStillPending.pending ≠ [] := by
  decide

/-- C7 amended: in every state reachable from the initial state by any sequence
of steps, the loading flag is cleared or a dispatched request has not resolved
yet (a set flag means a request in flight); when the state is reached by a
sequence in which `handleSubmit` is never run while the loading flag is set,
the flag is set if and only if a dispatched request has not resolved. -/
theorem loading_iff_request_in_flight (s : State) (h : Reachable s) :
    (s.loading = false ∨ s.pending ≠ []) ∧
      (SerialReachable s → (s.loading = true ↔ s.pending ≠ [])) := by
  constructor
  · obtain ⟨evs, hrun⟩ := h
    have hinv := run_loadingHasPending evs init s hrun init_loadingHasPending
    cases hl : s.loading with
    | false => exact Or.inl rfl
    | true => exact Or.inr (hinv hl)
  · rintro ⟨evs, hrun⟩
    have hinv := serialRun_singleFlight evs init s hrun init_singleFlight
    unfold SingleFlight at hinv
    cases hl : s.loading with
    | false =>
        rw [hl] at hinv
        simp only [Bool.false_eq_true, if_false] at hinv
        simp [List.length_eq_zero.mp hinv]
    | true =>
        rw [hl] at hinv
        simp only [if_true] at hinv
        have hne : s.pending ≠ [] := by
          intro he
          rw [he] at hinv
          simp at hinv
        simp [hne]

/-- Instance of the amended C7 at `awaitingWithDraft`, which is reachable, also
by a sequence that never runs `handleSubmit` while the loading flag is set. -/
theorem loading_iff_request_in_flight_witness :
    Reachable awaitingWithDraft ∧ SerialReachable awaitingWithDraft ∧
      (awaitingWithDraft.loading = false ∨ awaitingWithDraft.pending ≠ []) ∧
      (awaitingWithDraft.loading = true ↔ awaitingWithDraft.pending ≠ []) :=
  ⟨⟨[.selectExample 0, .submit, .selectExample 1], by decide⟩,
   ⟨[.selectExample 0, .submit, .selectExample 1], by decide⟩,
   (loading_iff_request_in_flight awaitingWithDraft
     ⟨[.selectExample 0, .submit, .selectExample 1], by decide⟩).1,
   (loading_iff_request_in_flight awaitingWithDraft
     ⟨[.selectExample 0, .submit, .selectExample 1], by decide⟩).2
     ⟨[.selectExample 0, .submit, .selectExample 1], by decide⟩⟩

/-! ## The transcript -/

/-- C10: for every step of the component (a keystroke, an example button, a
submission, the resolution of a request with any outcome), the transcript before
the step is a prefix of the transcript after it. -/
theorem step_history_prefix (s t : State) (ev : Event) (h : step s ev = some t) :
    s.chatHistory <+: t.chatHistory := by
  cases ev with
  | setQuestion text =>
      simp only [step, Option.some.injEq] at h
      subst h
      exact List.prefix_refl _
  | selectExample index =>
      simp only [step] at h
      cases hx : exampleQuestions.get? index with
      | none => rw [hx] at h; cases h
      | some ex =>
          rw [hx, Option.map_some', Option.some.injEq] at h
          subst h
          exact List.prefix_refl _
  | submit =>
      simp only [step, Option.some.injEq] at h
      subst h
      rw [handleSubmit_history]
  | resolve i r now =>
      simp only [step] at h
      cases hp : s.pending.get? i with
      | none => rw [resolve_of_no_pending s i r now hp] at h; cases h
      | some q =>
          rw [resolve_of_pending s i q r now hp, Option.some.injEq] at h
          subst h
          exact handleSubmitResume_history_prefix
            { s with pending := s.pending.eraseIdx i } q r now

/-- Instance of C10: the answer of the second question arrives after the first
one is in the transcript. -/
theorem step_history_prefix_witness :
    step { answeredMiranda with loading := true, pending := ["What is a tort?"] }
        (.resolve 0 (.fulfilled (some ⟨"A tort is a civil wrong."⟩)) "10:05:00 AM") =
        some { answeredMiranda with
                 answer := "A tort is a civil wrong.",
                 chatHistory := [mirandaEntry,
                   ⟨"What is a tort?", "A tort is a civil wrong.", "10:05:00 AM"⟩] } ∧
      [mirandaEntry] <+:
        [mirandaEntry, ⟨"What is a tort?", "A tort is a civil wrong.", "10:05:00 AM"⟩] :=
  ⟨by decide,
   step_history_prefix { answeredMiranda with loading := true, pending := ["What is a tort?"] }
     _ _ (by decide : step { answeredMiranda with loading := true, pending := ["What is a tort?"] }
        (.resolve 0 (.fulfilled (some ⟨"A tort is a civil wrong."⟩)) "10:05:00 AM") =
        some { answeredMiranda with
                 answer := "A tort is a civil wrong.",
                 chatHistory := [mirandaEntry,
                   ⟨"What is a tort?", "A tort is a civil wrong.", "10:05:00 AM"⟩] })⟩

end LegalQA
